import Mathlib

/-!
Shallow embedding of the TLS Security Analyzer
(src/tasks/pcaptls/tls_security_analyzer.py): cipher registries, the
TLSSession record, vulnerability classification, serialization, the manual
TLS byte parser, and the session-reconstruction fold shared by the tshark
and scapy backends.

Bytes are modelled as lists of naturals; Python byte slicing is total
(clamping), while byte indexing and struct.unpack are fallible and modelled
in the Except monad. Python truthiness on optional integers (None and 0
falsy) is modelled explicitly.
-/

namespace TLSAnalyzer

/-- EXPORT_CIPHERS classification set (module-level constant). -/
def EXPORT_CIPHERS : List Nat :=
  [0x0003, 0x0006, 0x0008, 0x000B, 0x000E, 0x0011, 0x0014, 0x0017, 0x0019,
   0x0026, 0x0027, 0x0028, 0x0029, 0x002A, 0x002B, 0x0062, 0x0063, 0x0064,
   0x0065, 0x0066]

/-- RC4_CIPHERS classification set (module-level constant). -/
def RC4_CIPHERS : List Nat :=
  [0x0003, 0x0004, 0x0005, 0x0017, 0x0018, 0x0020, 0x0024, 0x0028, 0x002F,
   0x0030, 0x0031, 0x0032, 0x0033, 0x0034, 0x0035, 0x0036, 0x0037, 0x0038,
   0x0039, 0x003A, 0x003B, 0x008A, 0x008B, 0x00A6, 0x00A7, 0x00C002, 0x00C007,
   0x00C00C, 0x00C011, 0x00C016, 0x00C01B, 0x00C020, 0x00C025, 0x00C02A,
   0x00C02F, 0x00C034, 0x00C039]

/-- NAMED_DH_GROUPS registry (RFC 7919 named groups). -/
def NAMED_DH_GROUPS : List (Nat × String) :=
  [(256, "ffdhe2048"), (257, "ffdhe3072"), (258, "ffdhe4096"),
   (259, "ffdhe6144"), (260, "ffdhe8192")]

/-- CIPHER_SUITE_NAMES registry (subset for common ones). -/
def CIPHER_SUITE_NAMES : List (Nat × String) :=
  [(0x0000, "TLS_NULL_WITH_NULL_NULL"),
   (0x0004, "TLS_RSA_WITH_RC4_128_MD5"),
   (0x0005, "TLS_RSA_WITH_RC4_128_SHA"),
   (0x002F, "TLS_RSA_WITH_AES_128_CBC_SHA"),
   (0x0035, "TLS_RSA_WITH_AES_256_CBC_SHA"),
   (0x003C, "TLS_RSA_WITH_AES_128_CBC_SHA256"),
   (0x009C, "TLS_RSA_WITH_AES_128_GCM_SHA256"),
   (0x009D, "TLS_RSA_WITH_AES_256_GCM_SHA384"),
   (0xC007, "TLS_ECDHE_ECDSA_WITH_RC4_128_SHA"),
   (0xC009, "TLS_ECDHE_ECDSA_WITH_AES_128_CBC_SHA"),
   (0xC00A, "TLS_ECDHE_ECDSA_WITH_AES_256_CBC_SHA"),
   (0xC011, "TLS_ECDHE_RSA_WITH_RC4_128_SHA"),
   (0xC013, "TLS_ECDHE_RSA_WITH_AES_128_CBC_SHA"),
   (0xC014, "TLS_ECDHE_RSA_WITH_AES_256_CBC_SHA"),
   (0xC023, "TLS_ECDHE_ECDSA_WITH_AES_128_CBC_SHA256"),
   (0xC027, "TLS_ECDHE_RSA_WITH_AES_128_CBC_SHA256"),
   (0xC02B, "TLS_ECDHE_ECDSA_WITH_AES_128_GCM_SHA256"),
   (0xC02C, "TLS_ECDHE_ECDSA_WITH_AES_256_GCM_SHA384"),
   (0xC02F, "TLS_ECDHE_RSA_WITH_AES_128_GCM_SHA256"),
   (0xC030, "TLS_ECDHE_RSA_WITH_AES_256_GCM_SHA384"),
   (0x1301, "TLS_AES_128_GCM_SHA256"),
   (0x1302, "TLS_AES_256_GCM_SHA384"),
   (0x1303, "TLS_CHACHA20_POLY1305_SHA256")]

/-- Python dict .get(key, default) over an association list. -/
def dictGet (m : List (Nat × String)) (k : Nat) (dflt : String) : String :=
  match m.find? (fun p => p.1 = k) with
  | some p => p.2
  | none => dflt

/-- The TLSSession record: mutable session state accumulated per connection
key (class TLSSession, constructor fields). Timestamps are modelled as
rationals (every capture-time float is one). -/
structure TLSSession where
  session_id : String
  timestamp : Rat
  client_ciphers : List Nat
  server_cipher : Option Nat
  dh_groups : List Nat
  dh_prime_size : Option Nat
  vulnerabilities : List String
  src_ip : Option String
  dst_ip : Option String
  src_port : Option Nat
  dst_port : Option Nat
deriving DecidableEq, Repr

/-- TLSSession.analyze_vulnerabilities, as a function of the three session
attributes the method reads. Python truthiness makes
`if self.server_cipher:` skip both None and 0, and
`if self.dh_prime_size and self.dh_prime_size < 1024:` skip None and 0. -/
def vulnFlagsOf (server_cipher : Option Nat) (dh_prime_size : Option Nat)
    (client_ciphers : List Nat) : List String :=
  let v : List String := []
  let v := match server_cipher with
    | some c =>
      if c ≠ 0 then
        let v := if c ∈ EXPORT_CIPHERS then v ++ ["EXPORT_GRADE_CIPHER"] else v
        if c ∈ RC4_CIPHERS then v ++ ["RC4_CIPHER"] else v
      else v
    | none => v
  let v := match dh_prime_size with
    | some p => if p ≠ 0 ∧ p < 1024 then v ++ ["WEAK_DH_PARAMETERS"] else v
    | none => v
  let v := if (∃ c ∈ client_ciphers, c ∈ EXPORT_CIPHERS) ∧
              "EXPORT_GRADE_CIPHER" ∉ v then v ++ ["EXPORT_CIPHER_OFFERED"] else v
  let v := if (∃ c ∈ client_ciphers, c ∈ RC4_CIPHERS) ∧
              "RC4_CIPHER" ∉ v then v ++ ["RC4_CIPHER_OFFERED"] else v
  v

/-- The flag list TLSSession.analyze_vulnerabilities stores on the session. -/
def analyzeVulnFlags (s : TLSSession) : List String :=
  vulnFlagsOf s.server_cipher s.dh_prime_size s.client_ciphers

/-- TLSSession.analyze_vulnerabilities: recompute self.vulnerabilities. -/
def TLSSession.analyze_vulnerabilities (s : TLSSession) : TLSSession :=
  { s with vulnerabilities := analyzeVulnFlags s }

/-- Condition for EXPORT_GRADE_CIPHER: server cipher truthy and in the
export set. -/
def selE (sc : Option Nat) : Bool :=
  match sc with
  | some c => decide (c ≠ 0) && decide (c ∈ EXPORT_CIPHERS)
  | none => false

/-- Condition for RC4_CIPHER: server cipher truthy and in the RC4 set. -/
def selR (sc : Option Nat) : Bool :=
  match sc with
  | some c => decide (c ≠ 0) && decide (c ∈ RC4_CIPHERS)
  | none => false

/-- Condition for WEAK_DH_PARAMETERS: prime size truthy and below 1024. -/
def weakB (dh : Option Nat) : Bool :=
  match dh with
  | some p => decide (p ≠ 0) && decide (p < 1024)
  | none => false

/-- At least one client-offered cipher is export-grade. -/
def offE (cc : List Nat) : Bool := decide (∃ c ∈ cc, c ∈ EXPORT_CIPHERS)

/-- At least one client-offered cipher is RC4. -/
def offR (cc : List Nat) : Bool := decide (∃ c ∈ cc, c ∈ RC4_CIPHERS)

/-- One uppercase hexadecimal digit character (as Python format code X). -/
def hexDigitUpper (n : Nat) : Char :=
  if n < 10 then Char.ofNat (48 + n) else Char.ofNat (55 + n)

/-- Digit extraction with structural fuel (any fuel above the value is
enough and irrelevant). -/
def hexRepAux (fuel n : Nat) : List Char :=
  match fuel with
  | 0 => []
  | f + 1 =>
    if n < 16 then [hexDigitUpper n]
    else hexRepAux f (n / 16) ++ [hexDigitUpper (n % 16)]

/-- Uppercase hexadecimal digits of n, most significant first, no padding. -/
def hexRep (n : Nat) : List Char := hexRepAux (n + 1) n

/-- Python f-string piece 0x{c:04X}: literal 0x, then the uppercase hex
digits of c zero-padded on the left to width 4. -/
def hex04X (n : Nat) : String :=
  String.mk (['0', 'x'] ++ List.replicate (4 - (hexRep n).length) '0' ++ hexRep n)

/-- CIPHER_SUITE_NAMES.get(c, "UNKNOWN"). -/
def cipherName (c : Nat) : String := dictGet CIPHER_SUITE_NAMES c "UNKNOWN"

/-- NAMED_DH_GROUPS.get(g, f-string unknown_{g}). -/
def namedGroup (g : Nat) : String := dictGet NAMED_DH_GROUPS g ("unknown_" ++ toString g)

/-- One serialized cipher-suite entry: (hex id, display name). -/
def cipherEntry (c : Nat) : String × String := (hex04X c, cipherName c)

/-- The serialized session (TLSSession.to_dict), with nested dicts
flattened into fields; the derived ISO timestamp string is omitted, the raw
timestamp it is derived from is kept. -/
structure SessionDict where
  session_id : String
  timestamp_unix : Rat
  src_ip : Option String
  src_port : Option Nat
  dst_ip : Option String
  dst_port : Option Nat
  client_offered : List (String × String)
  server_selected : Option (String × String)
  supported_groups : List Nat
  named_groups : List String
  prime_size_bits : Option Nat
  vulnerabilities : List String
  is_vulnerable : Bool
deriving DecidableEq, Repr

/-- TLSSession.to_dict. Python truthiness on self.server_cipher makes the
server_selected block None for both None and 0. -/
def TLSSession.to_dict (s : TLSSession) : SessionDict :=
  { session_id := s.session_id
    timestamp_unix := s.timestamp
    src_ip := s.src_ip
    src_port := s.src_port
    dst_ip := s.dst_ip
    dst_port := s.dst_port
    client_offered := s.client_ciphers.map cipherEntry
    server_selected :=
      match s.server_cipher with
      | some c => if c ≠ 0 then some (cipherEntry c) else none
      | none => none
    supported_groups := s.dh_groups
    named_groups := s.dh_groups.map namedGroup
    prime_size_bits := s.dh_prime_size
    vulnerabilities := s.vulnerabilities
    is_vulnerable := decide (0 < s.vulnerabilities.length) }

/-- The generated report (generate_report), with the summary kept as the
ordered key-value list the Python dict literal builds. -/
structure Report where
  total_sessions : Nat
  vulnerable_sessions : Nat
  vulnerability_summary : List (String × Nat)
  sessions : List SessionDict
deriving Repr

/-- sum(1 for s in sessions if flag in s.vulnerabilities). -/
def countFlag (sessions : List TLSSession) (flag : String) : Nat :=
  (sessions.filter (fun s => decide (flag ∈ s.vulnerabilities))).length

/-- generate_report: metadata counts, summary counters, serialized sessions. -/
def generate_report (sessions : List TLSSession) : Report :=
  { total_sessions := sessions.length
    vulnerable_sessions :=
      (sessions.filter (fun s => decide (s.vulnerabilities ≠ []))).length
    vulnerability_summary :=
      [("export_grade_ciphers", countFlag sessions "EXPORT_GRADE_CIPHER"),
       ("rc4_ciphers", countFlag sessions "RC4_CIPHER"),
       ("weak_dh_parameters", countFlag sessions "WEAK_DH_PARAMETERS"),
       ("export_cipher_offered", countFlag sessions "EXPORT_CIPHER_OFFERED"),
       ("rc4_cipher_offered", countFlag sessions "RC4_CIPHER_OFFERED")]
    sessions := sessions.map TLSSession.to_dict }

/-- Value of one hexadecimal digit character, as Python int(_, 16)
accepts: 0-9, a-f, A-F. -/
def hexVal (c : Char) : Option Nat :=
  if '0' ≤ c ∧ c ≤ '9' then some (c.toNat - 48)
  else if 'a' ≤ c ∧ c ≤ 'f' then some (c.toNat - 87)
  else if 'A' ≤ c ∧ c ≤ 'F' then some (c.toNat - 55)
  else none

/-- One accumulation step of hex parsing. -/
def hexStep (acc : Nat) (c : Char) : Option Nat :=
  (hexVal c).map (fun d => acc * 16 + d)

/-- Parse a nonempty run of hex digit characters, most significant first. -/
def parseHex (cs : List Char) : Option Nat :=
  match cs with
  | [] => none
  | _ => cs.foldlM hexStep 0

/-- Python int(x, 16) on the string shapes at issue: an optional 0x or 0X
marker followed by hex digits (no sign, whitespace or underscores occur in
the serialized ids). -/
def int16 (x : String) : Option Nat :=
  match x.data with
  | '0' :: 'x' :: rest => parseHex rest
  | '0' :: 'X' :: rest => parseHex rest
  | cs => parseHex cs

/-- The digit characters emitted by hexRep are uppercase hex digits. -/
def isUpperHexDigit (c : Char) : Bool :=
  decide (('0' ≤ c ∧ c ≤ '9') ∨ ('A' ≤ c ∧ c ≤ 'F'))

/-- Raw application payload bytes. -/
abbrev Bytes := List Nat

/-- Python byte slicing data[a:b] with nonnegative bounds: total, clamping
at the ends, never raising. -/
def pySlice (data : Bytes) (a b : Nat) : Bytes := (data.drop a).take (b - a)

/-- Python byte indexing data[i] with nonnegative index: IndexError when
out of range. -/
def pyIndex (data : Bytes) (i : Nat) : Except String Nat :=
  match data[i]? with
  | some x => Except.ok x
  | none => Except.error "IndexError"

/-- struct.unpack of one big-endian 16-bit field: struct.error unless the
buffer is exactly 2 bytes. -/
def unpackH (buf : Bytes) : Except String Nat :=
  match buf with
  | [b1, b2] => Except.ok (b1 * 256 + b2)
  | _ => Except.error "struct.error"

/-- struct.unpack of one big-endian 32-bit field: struct.error unless the
buffer is exactly 4 bytes. -/
def unpackI (buf : Bytes) : Except String Nat :=
  match buf with
  | [b1, b2, b3, b4] => Except.ok (((b1 * 256 + b2) * 256 + b3) * 256 + b4)
  | _ => Except.error "struct.error"

/-- The dict shapes the manual parser returns: a ClientHello dict carrying
the cipher list, or a ServerHello dict carrying the optional cipher. -/
inductive ParsedMsg where
  | clientHello (ciphers : List Nat)
  | serverHello (cipher : Option Nat)
deriving DecidableEq, Repr

/-- ManualTLSParser.parse_client_hello: skip version, random and session
id, read the 2-byte cipher list length, then collect 2-byte cipher ids
while they fit in the buffer. -/
def parse_client_hello (data : Bytes) : Except String ParsedMsg :=
  if data.length < 38 then pure (ParsedMsg.clientHello [])
  else
    pyIndex data 34 >>= fun session_id_len =>
    let pos := 35 + session_id_len
    if data.length < pos + 2 then pure (ParsedMsg.clientHello [])
    else
      unpackH (pySlice data pos (pos + 2)) >>= fun cipher_len =>
      let pos := pos + 2
      ((List.range ((cipher_len + 1) / 2)).map (2 * ·)).foldlM (fun acc i =>
        if pos + i + 2 ≤ data.length then
          unpackH (pySlice data (pos + i) (pos + i + 2)) >>= fun c =>
          pure (acc ++ [c])
        else pure acc) ([] : List Nat) >>= fun ciphers =>
      pure (ParsedMsg.clientHello ciphers)

/-- ManualTLSParser.parse_server_hello: same skipping, then one 2-byte
selected cipher. -/
def parse_server_hello (data : Bytes) : Except String ParsedMsg :=
  if data.length < 38 then pure (ParsedMsg.serverHello none)
  else
    pyIndex data 34 >>= fun session_id_len =>
    let pos := 35 + session_id_len
    if data.length < pos + 2 then pure (ParsedMsg.serverHello none)
    else
      unpackH (pySlice data pos (pos + 2)) >>= fun cipher =>
      pure (ParsedMsg.serverHello (some cipher))

/-- ManualTLSParser.parse_handshake: 1-byte message type, 3-byte length
(unpacked as a 32-bit field with a zero byte prepended), then dispatch on
type 1 (ClientHello) and 2 (ServerHello); every other type yields None. -/
def parse_handshake (data : Bytes) : Except String (Option ParsedMsg) :=
  if data.length < 4 then pure none
  else
    pyIndex data 0 >>= fun msg_type =>
    unpackI (0 :: pySlice data 1 4) >>= fun msg_len =>
    if data.length < 4 + msg_len then pure none
    else
      let msg_data := pySlice data 4 (4 + msg_len)
      if msg_type = 1 then
        parse_client_hello msg_data >>= fun r => pure (some r)
      else if msg_type = 2 then
        parse_server_hello msg_data >>= fun r => pure (some r)
      else pure none

/-- ManualTLSParser.parse_tls_record: 5-byte record header, content type
must be 0x16 (handshake) and the declared length must fit. -/
def parse_tls_record (data : Bytes) : Except String (Option ParsedMsg) :=
  if data.length < 5 then pure none
  else
    pyIndex data 0 >>= fun content_type =>
    unpackH (pySlice data 1 3) >>= fun _version =>
    unpackH (pySlice data 3 5) >>= fun length =>
    if content_type ≠ 0x16 then pure none
    else if data.length < 5 + length then pure none
    else parse_handshake (pySlice data 5 (5 + length))

/-- A computation completed without raising. -/
def okB {α : Type} : Except String α → Bool
  | Except.ok _ => true
  | Except.error _ => false

/-- One captured frame together with the handshake facts extracted from
its payload (the manual_parse branch of ScapyAnalyzer.analyze_pcap). -/
structure Frame where
  time : Rat
  src_ip : String
  dst_ip : String
  sport : Nat
  dport : Nat
  facts : ParsedMsg
deriving DecidableEq, Repr

/-- f-string {ip}:{port}. -/
def endpointStr (ip : String) (port : Nat) : String :=
  ip ++ ":" ++ toString port

/-- Python string comparison a < b: lexicographic on code points. -/
def charListLt : List Char → List Char → Bool
  | [], [] => false
  | [], _ :: _ => true
  | _ :: _, [] => false
  | a :: as, b :: bs =>
    if a < b then true else if b < a then false else charListLt as bs

/-- Python string comparison lifted to strings. -/
def pyStrLt (a b : String) : Bool := charListLt a.data b.data

/-- The bidirectional session id: lexicographically smaller endpoint
string first, joined with a dash. -/
def sessionKey (e1 e2 : String) : String :=
  if pyStrLt e1 e2 then e1 ++ "-" ++ e2 else e2 ++ "-" ++ e1

/-- The session key computed for a frame from its connection tuple. -/
def frameKey (f : Frame) : String :=
  sessionKey (endpointStr f.src_ip f.sport) (endpointStr f.dst_ip f.dport)

/-- TLSSession.__init__ fields plus the endpoint fields stored on first
sighting of a session key. -/
def newSession (key : String) (f : Frame) : TLSSession :=
  { session_id := key
    timestamp := f.time
    client_ciphers := []
    server_cipher := none
    dh_groups := []
    dh_prime_size := none
    vulnerabilities := []
    src_ip := some f.src_ip
    dst_ip := some f.dst_ip
    src_port := some f.sport
    dst_port := some f.dport }

/-- Applying one frame's facts to its session: ClientHello facts overwrite
the offered ciphers when the parsed list is nonempty; ServerHello facts
overwrite the selected cipher when one was parsed. -/
def updateSession (s : TLSSession) (f : Frame) : TLSSession :=
  match f.facts with
  | ParsedMsg.clientHello ciphers =>
    if ciphers ≠ [] then { s with client_ciphers := ciphers } else s
  | ParsedMsg.serverHello c =>
    match c with
    | some cipher => { s with server_cipher := some cipher }
    | none => s

/-- The insertion-ordered session dict. -/
abbrev SessMap := List (String × TLSSession)

/-- Dict key lookup. -/
def lookupSess : SessMap → String → Option TLSSession
  | [], _ => none
  | p :: m, k => if p.1 = k then some p.2 else lookupSess m k

/-- Dict value overwrite at an existing key, keeping insertion order. -/
def setSess : SessMap → String → TLSSession → SessMap
  | [], _, _ => []
  | p :: m, k, s => if p.1 = k then (p.1, s) :: m else p :: setSess m k s

/-- One step of the reconstruction fold (the per-frame body of
analyze_pcap): create the session when the key is unseen, then apply the
frame's facts to it. -/
def processFrame (m : SessMap) (f : Frame) : SessMap :=
  match lookupSess m (frameKey f) with
  | none => m ++ [(frameKey f, updateSession (newSession (frameKey f) f) f)]
  | some s => setSess m (frameKey f) (updateSession s f)

/-- A session fixture with the given ciphers, selected cipher and prime
size; remaining fields neutral. -/
def mkSession (cc : List Nat) (sc : Option Nat) (dh : Option Nat) : TLSSession :=
  { session_id := "sess"
    timestamp := 0
    client_ciphers := cc
    server_cipher := sc
    dh_groups := []
    dh_prime_size := dh
    vulnerabilities := []
    src_ip := none
    dst_ip := none
    src_port := none
    dst_port := none }

/-- A ClientHello-bearing frame fixture, capture time 2. -/
def frameCH : Frame :=
  { time := 2, src_ip := "10.0.0.1", dst_ip := "10.0.0.2", sport := 443,
    dport := 51000, facts := ParsedMsg.clientHello [3] }

/-- A ServerHello-bearing frame fixture for the reverse direction,
capture time 1. -/
def frameSH : Frame :=
  { time := 1, src_ip := "10.0.0.2", dst_ip := "10.0.0.1", sport := 51000,
    dport := 443, facts := ParsedMsg.serverHello (some 4) }

/-- Closed form of the sequential flag accumulation: the five conditional
chunks in emission order. -/
theorem vulnFlagsOf_closed (sc dh : Option Nat) (cc : List Nat) :
    vulnFlagsOf sc dh cc =
      (if selE sc then ["EXPORT_GRADE_CIPHER"] else []) ++
      (if selR sc then ["RC4_CIPHER"] else []) ++
      (if weakB dh then ["WEAK_DH_PARAMETERS"] else []) ++
      (if offE cc && !selE sc then ["EXPORT_CIPHER_OFFERED"] else []) ++
      (if offR cc && !selR sc then ["RC4_CIPHER_OFFERED"] else []) := by
  have hE : (∃ c ∈ cc, c ∈ EXPORT_CIPHERS) ↔ offE cc = true := by simp [offE]
  have hR : (∃ c ∈ cc, c ∈ RC4_CIPHERS) ↔ offR cc = true := by simp [offR]
  rcases sc with _ | c
  · rcases dh with _ | p
    · by_cases hoe : offE cc = true <;> by_cases hor : offR cc = true <;>
        simp [vulnFlagsOf, selE, selR, weakB, hoe, hor, hE, hR]
    · by_cases hw : p ≠ 0 ∧ p < 1024 <;>
        by_cases hoe : offE cc = true <;> by_cases hor : offR cc = true <;>
        simp [vulnFlagsOf, selE, selR, weakB, hw, hoe, hor, hE, hR]
  · by_cases hc0 : c = 0 <;>
      by_cases hce : c ∈ EXPORT_CIPHERS <;> by_cases hcr : c ∈ RC4_CIPHERS <;>
      rcases dh with _ | p <;>
      first
        | (by_cases hw : p ≠ 0 ∧ p < 1024 <;>
           by_cases hoe : offE cc = true <;> by_cases hor : offR cc = true <;>
           simp [vulnFlagsOf, selE, selR, weakB, hc0, hce, hcr, hw, hoe, hor,
             hE, hR])
        | (by_cases hoe : offE cc = true <;> by_cases hor : offR cc = true <;>
           simp [vulnFlagsOf, selE, selR, weakB, hc0, hce, hcr, hoe, hor,
             hE, hR])

/-- The closed form specialized to a session. -/
theorem analyzeVulnFlags_closed (s : TLSSession) :
    analyzeVulnFlags s =
      (if selE s.server_cipher then ["EXPORT_GRADE_CIPHER"] else []) ++
      (if selR s.server_cipher then ["RC4_CIPHER"] else []) ++
      (if weakB s.dh_prime_size then ["WEAK_DH_PARAMETERS"] else []) ++
      (if offE s.client_ciphers && !selE s.server_cipher
        then ["EXPORT_CIPHER_OFFERED"] else []) ++
      (if offR s.client_ciphers && !selR s.server_cipher
        then ["RC4_CIPHER_OFFERED"] else []) :=
  vulnFlagsOf_closed s.server_cipher s.dh_prime_size s.client_ciphers

theorem hexRepAux_irrel : ∀ n f1 f2, n < f1 → n < f2 →
    hexRepAux f1 n = hexRepAux f2 n := by
  intro n
  induction n using Nat.strong_induction_on with
  | _ n ih =>
    intro f1 f2 h1 h2
    match f1, f2 with
    | g1 + 1, g2 + 1 =>
      simp only [hexRepAux]
      by_cases h16 : n < 16
      · simp [h16]
      · simp only [h16, if_false]
        have hlt : n / 16 < n := Nat.div_lt_self (by omega) (by omega)
        rw [ih (n / 16) hlt g1 g2 (by omega) (by omega)]

/-- The recurrence hexRep satisfies. -/
theorem hexRep_eq (n : Nat) :
    hexRep n = if n < 16 then [hexDigitUpper n]
      else hexRep (n / 16) ++ [hexDigitUpper (n % 16)] := by
  show hexRepAux (n + 1) n = _
  by_cases h16 : n < 16
  · simp [hexRepAux, h16]
  · have hlt : n / 16 < n := Nat.div_lt_self (by omega) (by omega)
    simp only [hexRepAux, h16, if_false]
    rw [hexRepAux_irrel (n / 16) n (n / 16 + 1) (by omega) (by omega)]
    rfl

theorem hexVal_hexDigitUpper : ∀ m < 16, hexVal (hexDigitUpper m) = some m := by
  decide

theorem hexRep_ne_nil (n : Nat) : hexRep n ≠ [] := by
  rw [hexRep_eq]
  split <;> simp

theorem foldlM_hexStep_hexRep (n : Nat) :
    ∀ acc, (hexRep n).foldlM hexStep acc =
      some (acc * 16 ^ (hexRep n).length + n) := by
  induction n using Nat.strong_induction_on with
  | _ n ih =>
    intro acc
    by_cases h : n < 16
    · rw [hexRep_eq]
      simp [h, List.foldlM, hexStep, hexVal_hexDigitUpper n h]
    · have hdiv : n / 16 < n := Nat.div_lt_self (by omega) (by omega)
      rw [hexRep_eq]
      simp only [h, if_false]
      rw [List.foldlM_append, ih (n / 16) hdiv acc]
      have hmod : n % 16 < 16 := Nat.mod_lt n (by omega)
      have hfold : List.foldlM hexStep
          (acc * 16 ^ (hexRep (n / 16)).length + n / 16)
          [hexDigitUpper (n % 16)] =
          some ((acc * 16 ^ (hexRep (n / 16)).length + n / 16) * 16 + n % 16) := by
        simp [List.foldlM, hexStep, hexVal_hexDigitUpper (n % 16) hmod]
      simp only [Option.bind_eq_bind, Option.some_bind, hfold,
        List.length_append, List.length_singleton, Option.some.injEq]
      rw [pow_succ, ← mul_assoc]
      set t := acc * 16 ^ (hexRep (n / 16)).length with ht
      omega

theorem parseHex_eq_foldlM (cs : List Char) (h : cs ≠ []) :
    parseHex cs = cs.foldlM hexStep 0 := by
  cases cs with
  | nil => exact absurd rfl h
  | cons c cs => rfl

theorem foldlM_hexStep_zeros (m : Nat) :
    (List.replicate m '0').foldlM hexStep 0 = some 0 := by
  induction m with
  | zero => rfl
  | succ k ih =>
    have h0 : hexStep 0 '0' = some 0 := by decide
    simp [List.replicate, List.foldlM, h0, ih]

theorem parseHex_padded_hexRep (m n : Nat) :
    parseHex (List.replicate m '0' ++ hexRep n) = some n := by
  have hne : List.replicate m '0' ++ hexRep n ≠ [] := by
    simp [hexRep_ne_nil n]
  rw [parseHex_eq_foldlM _ hne, List.foldlM_append, foldlM_hexStep_zeros m]
  simp [foldlM_hexStep_hexRep n 0]

theorem int16_hex04X (n : Nat) : int16 (hex04X n) = some n := by
  show parseHex (List.replicate (4 - (hexRep n).length) '0' ++ hexRep n) = some n
  exact parseHex_padded_hexRep _ n

theorem hexRep_all_upper (n : Nat) :
    (hexRep n).all isUpperHexDigit = true := by
  induction n using Nat.strong_induction_on with
  | _ n ih =>
    have hd : ∀ m < 16, isUpperHexDigit (hexDigitUpper m) = true := by decide
    by_cases h : n < 16
    · rw [hexRep_eq]; simp [h, hd n h]
    · have hdiv : n / 16 < n := Nat.div_lt_self (by omega) (by omega)
      rw [hexRep_eq]
      simp only [h, if_false, List.all_append, ih (n / 16) hdiv,
        Bool.true_and, List.all_cons, List.all_nil, Bool.and_true]
      exact hd (n % 16) (Nat.mod_lt n (by omega))

theorem hex04X_data (n : Nat) :
    (hex04X n).data =
      '0' :: 'x' :: (List.replicate (4 - (hexRep n).length) '0' ++ hexRep n) := rfl

theorem hex04X_digits_upper (n : Nat) :
    ((hex04X n).data.drop 2).all isUpperHexDigit = true := by
  rw [hex04X_data]
  simp only [List.drop_succ_cons, List.drop_zero, List.all_append,
    hexRep_all_upper n, Bool.and_true]
  rw [List.all_eq_true]
  intro c hc
  rw [List.eq_of_mem_replicate hc]
  decide

theorem hex04X_digits_length (n : Nat) :
    4 ≤ ((hex04X n).data.drop 2).length := by
  rw [hex04X_data]
  simp only [List.drop_succ_cons, List.drop_zero, List.length_append,
    List.length_replicate]
  have := List.length_pos.mpr (hexRep_ne_nil n)
  omega

theorem okB_pure {α : Type} (a : α) : okB (pure a) = true := rfl

theorem okB_bind {α β : Type} (x : Except String α) (k : α → Except String β)
    (hx : okB x = true) (hk : ∀ a, x = Except.ok a → okB (k a) = true) :
    okB (x >>= k) = true := by
  cases x with
  | ok a => simpa using hk a rfl
  | error e => simp [okB] at hx

theorem okB_foldlM {α β : Type} (l : List α) (f : β → α → Except String β)
    (h : ∀ b a, okB (f b a) = true) : ∀ b, okB (l.foldlM f b) = true := by
  induction l with
  | nil => intro b; rfl
  | cons a t ih =>
    intro b
    cases hfa : f b a with
    | error e =>
      have := h b a
      rw [hfa] at this
      simp [okB] at this
    | ok c =>
      simpa [List.foldlM, hfa] using ih c

theorem pySlice_length (data : Bytes) (a b : Nat) :
    (pySlice data a b).length = min (b - a) (data.length - a) := by
  simp [pySlice]

theorem ok_bind {α β : Type} (a : α) (k : α → Except String β) :
    (Except.ok a >>= k) = k a := rfl

theorem pyIndex_ok (data : Bytes) (i : Nat) (h : i < data.length) :
    okB (pyIndex data i) = true := by
  unfold pyIndex
  rw [List.getElem?_eq_getElem h]
  rfl

theorem unpackH_ok (buf : Bytes) (h : buf.length = 2) :
    okB (unpackH buf) = true := by
  match buf, h with
  | [b1, b2], _ => rfl

theorem unpackI_ok (buf : Bytes) (h : buf.length = 4) :
    okB (unpackI buf) = true := by
  match buf, h with
  | [b1, b2, b3, b4], _ => rfl

theorem unpackH_slice_ok (data : Bytes) (p : Nat) (h : p + 2 ≤ data.length) :
    okB (unpackH (pySlice data p (p + 2))) = true := by
  apply unpackH_ok
  rw [pySlice_length]
  omega

/-- parse_client_hello never raises. -/
theorem parse_client_hello_ok (data : Bytes) :
    okB (parse_client_hello data) = true := by
  unfold parse_client_hello
  by_cases h38 : data.length < 38
  · simp [h38, okB_pure]
  · simp only [h38, if_false]
    apply okB_bind _ _ (pyIndex_ok data 34 (by omega))
    intro sid _
    by_cases hp : data.length < 35 + sid + 2
    · simp [hp, okB_pure]
    · simp only [hp, if_false]
      apply okB_bind _ _ (unpackH_slice_ok data (35 + sid) (by omega))
      intro cipher_len _
      apply okB_bind
      · apply okB_foldlM
        intro acc i
        by_cases hg : 35 + sid + 2 + i + 2 ≤ data.length
        · simp only [hg, if_true]
          apply okB_bind _ _ (by
            apply unpackH_ok
            rw [pySlice_length]
            omega)
          intro c _
          exact okB_pure _
        · simp [hg, okB_pure]
      · intro ciphers _
        exact okB_pure _

/-- parse_server_hello never raises. -/
theorem parse_server_hello_ok (data : Bytes) :
    okB (parse_server_hello data) = true := by
  unfold parse_server_hello
  by_cases h38 : data.length < 38
  · simp [h38, okB_pure]
  · simp only [h38, if_false]
    apply okB_bind _ _ (pyIndex_ok data 34 (by omega))
    intro sid _
    by_cases hp : data.length < 35 + sid + 2
    · simp [hp, okB_pure]
    · simp only [hp, if_false]
      apply okB_bind _ _ (unpackH_slice_ok data (35 + sid) (by omega))
      intro cipher _
      exact okB_pure _

/-- parse_handshake never raises. -/
theorem parse_handshake_ok (data : Bytes) :
    okB (parse_handshake data) = true := by
  unfold parse_handshake
  by_cases h4 : data.length < 4
  · simp [h4, okB_pure]
  · simp only [h4, if_false]
    apply okB_bind _ _ (pyIndex_ok data 0 (by omega))
    intro msg_type _
    apply okB_bind _ _ (by
      apply unpackI_ok
      simp only [List.length_cons, pySlice_length]
      omega)
    intro msg_len _
    by_cases hl : data.length < 4 + msg_len
    · simp [hl, okB_pure]
    · simp only [hl, if_false]
      by_cases h1 : msg_type = 1
      · simp only [h1, if_true]
        apply okB_bind _ _ (parse_client_hello_ok _)
        intro r _
        exact okB_pure _
      · simp only [h1, if_false]
        by_cases h2 : msg_type = 2
        · simp only [h2, if_true]
          apply okB_bind _ _ (parse_server_hello_ok _)
          intro r _
          exact okB_pure _
        · simp [h2, okB_pure]

/-- parse_tls_record never raises. -/
theorem parse_tls_record_ok (data : Bytes) :
    okB (parse_tls_record data) = true := by
  unfold parse_tls_record
  by_cases h5 : data.length < 5
  · simp [h5, okB_pure]
  · simp only [h5, if_false]
    apply okB_bind _ _ (pyIndex_ok data 0 (by omega))
    intro content_type _
    apply okB_bind _ _ (by
      apply unpackH_ok
      rw [pySlice_length]
      omega)
    intro _version _
    apply okB_bind _ _ (by
      apply unpackH_ok
      rw [pySlice_length]
      omega)
    intro length _
    by_cases ht : content_type ≠ 0x16
    · simp [ht, okB_pure]
    · simp only [ht, if_false]
      by_cases hl : data.length < 5 + length
      · simp [hl, okB_pure]
      · simp only [hl, if_false]
        exact parse_handshake_ok _

theorem charListLt_asymm : ∀ as bs, charListLt as bs = true →
    charListLt bs as = false := by
  intro as
  induction as with
  | nil =>
    intro bs h
    cases bs with
    | nil => simp [charListLt] at h
    | cons b t => rfl
  | cons a as ih =>
    intro bs h
    cases bs with
    | nil => simp [charListLt] at h
    | cons b bs =>
      by_cases hab : a < b
      · have hba : ¬ b < a := asymm hab
        simp [charListLt, hba, hab]
      · by_cases hba : b < a
        · simp [charListLt, hab, hba] at h
        · simp only [charListLt, hab, hba, if_false] at h ⊢
          exact ih bs h

theorem charListLt_antisymm : ∀ as bs, charListLt as bs = false →
    charListLt bs as = false → as = bs := by
  intro as
  induction as with
  | nil =>
    intro bs h1 _
    cases bs with
    | nil => rfl
    | cons b t => simp [charListLt] at h1
  | cons a as ih =>
    intro bs h1 h2
    cases bs with
    | nil => simp [charListLt] at h2
    | cons b bs =>
      by_cases hab : a < b
      · simp [charListLt, hab] at h1
      · by_cases hba : b < a
        · simp [charListLt, hba] at h2
        · have hcc : a = b := le_antisymm (not_lt.mp hba) (not_lt.mp hab)
          simp only [charListLt, hab, hba, if_false] at h1 h2
          rw [hcc, ih bs h1 h2]

theorem pyStrLt_antisymm (a b : String) (h1 : pyStrLt a b = false)
    (h2 : pyStrLt b a = false) : a = b := by
  cases a with
  | mk da =>
    cases b with
    | mk db =>
      have := charListLt_antisymm da db h1 h2
      rw [this]

theorem pyStrLt_asymm (a b : String) (h : pyStrLt a b = true) :
    pyStrLt b a = false :=
  charListLt_asymm a.data b.data h

theorem sessionKey_comm (a b : String) : sessionKey a b = sessionKey b a := by
  unfold sessionKey
  cases hab : pyStrLt a b with
  | true =>
    rw [if_pos rfl, if_neg (by rw [pyStrLt_asymm a b hab]; simp)]
  | false =>
    cases hba : pyStrLt b a with
    | true => rw [if_neg (by simp), if_pos rfl]
    | false =>
      rw [if_neg (by simp), if_neg (by simp), pyStrLt_antisymm a b hab hba]

theorem updateSession_timestamp (s : TLSSession) (f : Frame) :
    (updateSession s f).timestamp = s.timestamp := by
  unfold updateSession
  split
  · split <;> rfl
  · split <;> rfl

theorem updateSession_dh_prime_size (s : TLSSession) (f : Frame) :
    (updateSession s f).dh_prime_size = s.dh_prime_size := by
  unfold updateSession
  split
  · split <;> rfl
  · split <;> rfl

theorem lookupSess_setSess_self (m : SessMap) (k : String) (s : TLSSession)
    (h : (lookupSess m k).isSome) : lookupSess (setSess m k s) k = some s := by
  induction m with
  | nil => simp [lookupSess] at h
  | cons p m ih =>
    by_cases hp : p.1 = k
    · simp [lookupSess, setSess, hp]
    · simp only [lookupSess, setSess, hp, if_false, if_neg hp] at h ⊢
      exact ih h

theorem lookupSess_append_right (m : SessMap) (k : String) (s : TLSSession)
    (h : lookupSess m k = none) :
    lookupSess (m ++ [(k, s)]) k = some s := by
  induction m with
  | nil => simp [lookupSess]
  | cons p m ih =>
    by_cases hp : p.1 = k
    · simp [lookupSess, hp] at h
    · simp only [lookupSess, hp, if_neg hp, List.cons_append] at h ⊢
      exact ih h

/-- The two-frame reconstruction run, when both frames share a key,
produces the one-entry dict with both updates applied in order. -/
theorem processFrame_pair (f1 f2 : Frame) (hk : frameKey f1 = frameKey f2) :
    processFrame (processFrame [] f1) f2 =
      [(frameKey f1,
        updateSession (updateSession (newSession (frameKey f1) f1) f1) f2)] := by
  show processFrame (processFrame [] f1) f2 = _
  unfold processFrame
  simp only [lookupSess, List.nil_append, ← hk]
  simp [lookupSess, setSess]

/-- Membership of each flag in the classification output, characterized by
its condition. -/
theorem mem_flags (s : TLSSession) :
    ("EXPORT_GRADE_CIPHER" ∈ analyzeVulnFlags s ↔ selE s.server_cipher = true) ∧
    ("RC4_CIPHER" ∈ analyzeVulnFlags s ↔ selR s.server_cipher = true) ∧
    ("WEAK_DH_PARAMETERS" ∈ analyzeVulnFlags s ↔ weakB s.dh_prime_size = true) ∧
    ("EXPORT_CIPHER_OFFERED" ∈ analyzeVulnFlags s ↔
      (offE s.client_ciphers = true ∧ selE s.server_cipher = false)) ∧
    ("RC4_CIPHER_OFFERED" ∈ analyzeVulnFlags s ↔
      (offR s.client_ciphers = true ∧ selR s.server_cipher = false)) := by
  rw [analyzeVulnFlags_closed]
  cases hE : selE s.server_cipher <;> cases hR : selR s.server_cipher <;>
    cases hW : weakB s.dh_prime_size <;> cases hEO : offE s.client_ciphers <;>
    cases hRO : offR s.client_ciphers <;> simp

theorem length_three (l : List Nat) (h : l.length = 3) :
    ∃ x y z, l = [x, y, z] := by
  match l, h with
  | [x, y, z], _ => exact ⟨x, y, z, rfl⟩

/-- parse_handshake yields no facts for any message type other than 1 and
2, whatever the rest of the bytes hold. -/
theorem parse_handshake_not_hello (data : Bytes) (t : Nat)
    (ht : data[0]? = some t) (h1 : t ≠ 1) (h2 : t ≠ 2) :
    parse_handshake data = Except.ok none := by
  unfold parse_handshake
  by_cases h4 : data.length < 4
  · rw [if_pos h4]; rfl
  · rw [if_neg h4]
    have hpy : pyIndex data 0 = Except.ok t := by unfold pyIndex; rw [ht]
    have hlen : (pySlice data 1 4).length = 3 := by rw [pySlice_length]; omega
    obtain ⟨x, y, z, hxyz⟩ := length_three _ hlen
    rw [hpy, ok_bind, hxyz,
      show unpackI [0, x, y, z] =
        Except.ok (((0 * 256 + x) * 256 + y) * 256 + z) from rfl,
      ok_bind]
    by_cases hml : data.length < 4 + (((0 * 256 + x) * 256 + y) * 256 + z)
    · rw [if_pos hml]; rfl
    · rw [if_neg hml]
      simp only [h1, h2, if_false]
      rfl

/-- Claim C1, counterexample: a well-formed handshake message of type 12
(ServerKeyExchange) whose body's first two bytes encode the byte length 80
yields no facts from parse_handshake; the parser does not interpret the
body, so no session can acquire prime_size_bits 640 from it. -/
theorem claim_C1_counterexample :
    parse_handshake ([12, 0, 0, 82, 0, 80] ++ List.replicate 80 0) =
      Except.ok none ∧
    ([12, 0, 0, 82, 0, 80] ++ List.replicate 80 0)[0]? = some 12 ∧
    unpackH (pySlice ([12, 0, 0, 82, 0, 80] ++ List.replicate 80 0) 4 6) =
      Except.ok 80 ∧
    80 * 8 = 640 :=
  ⟨rfl, rfl, rfl, rfl⟩

/-- Claim C1, amended: the manual byte parser handles only message types 1
and 2; any raw handshake whose type byte is 12 parses to no facts, the
reconstruction fold never writes dh_prime_size (updates preserve it, new
sessions start with none), and WEAK_DH_PARAMETERS is flagged exactly when
a session's dh_prime_size is a nonzero value below 1024. -/
theorem claim_C1_amended :
    (∀ data : Bytes, data[0]? = some 12 → parse_handshake data = Except.ok none) ∧
    (∀ (s : TLSSession) (f : Frame),
      (updateSession s f).dh_prime_size = s.dh_prime_size) ∧
    (∀ (key : String) (f : Frame), (newSession key f).dh_prime_size = none) ∧
    (∀ s : TLSSession,
      "WEAK_DH_PARAMETERS" ∈ analyzeVulnFlags s ↔ weakB s.dh_prime_size = true) :=
  ⟨fun data h12 => parse_handshake_not_hello data 12 h12 (by decide) (by decide),
   updateSession_dh_prime_size,
   fun _ _ => rfl,
   fun s => (mem_flags s).2.2.1⟩

/-- Claim C1, witness: the amended statement applied to a concrete type-12
handshake message. -/
theorem claim_C1_witness : parse_handshake [12, 0, 0, 0] = Except.ok none :=
  claim_C1_amended.1 [12, 0, 0, 0] rfl

/-- Claim C2: a server-selected cipher in the export set always yields
EXPORT_GRADE_CIPHER and never EXPORT_CIPHER_OFFERED; EXPORT_CIPHER_OFFERED
appears exactly when a client-offered cipher is in the export set while
EXPORT_GRADE_CIPHER is not flagged; and the RC4 analogues. -/
theorem claim_C2 (s : TLSSession) :
    (∀ c, s.server_cipher = some c → c ∈ EXPORT_CIPHERS →
      "EXPORT_GRADE_CIPHER" ∈ analyzeVulnFlags s ∧
      "EXPORT_CIPHER_OFFERED" ∉ analyzeVulnFlags s) ∧
    ("EXPORT_CIPHER_OFFERED" ∈ analyzeVulnFlags s ↔
      ((∃ c ∈ s.client_ciphers, c ∈ EXPORT_CIPHERS) ∧
        "EXPORT_GRADE_CIPHER" ∉ analyzeVulnFlags s)) ∧
    (∀ c, s.server_cipher = some c → c ∈ RC4_CIPHERS →
      "RC4_CIPHER" ∈ analyzeVulnFlags s ∧
      "RC4_CIPHER_OFFERED" ∉ analyzeVulnFlags s) ∧
    ("RC4_CIPHER_OFFERED" ∈ analyzeVulnFlags s ↔
      ((∃ c ∈ s.client_ciphers, c ∈ RC4_CIPHERS) ∧
        "RC4_CIPHER" ∉ analyzeVulnFlags s)) := by
  obtain ⟨h1, h2, h3, h4, h5⟩ := mem_flags s
  refine ⟨?_, ?_, ?_, ?_⟩
  · intro c hc hce
    have hne : c ≠ 0 := by
      intro h0
      rw [h0] at hce
      exact absurd hce (by decide)
    have hsel : selE s.server_cipher = true := by simp [selE, hc, hne, hce]
    refine ⟨h1.mpr hsel, fun hmem => ?_⟩
    have hco := (h4.mp hmem).2
    rw [hsel] at hco
    cases hco
  · rw [h4]
    constructor
    · rintro ⟨ho, hsel⟩
      refine ⟨by simpa [offE] using ho, ?_⟩
      rw [h1, hsel]
      simp
    · rintro ⟨ho, hnm⟩
      refine ⟨by simpa [offE] using ho, ?_⟩
      rw [h1] at hnm
      cases hse : selE s.server_cipher
      · rfl
      · exact absurd hse hnm
  · intro c hc hcr
    have hne : c ≠ 0 := by
      intro h0
      rw [h0] at hcr
      exact absurd hcr (by decide)
    have hsel : selR s.server_cipher = true := by simp [selR, hc, hne, hcr]
    refine ⟨h2.mpr hsel, fun hmem => ?_⟩
    have hco := (h5.mp hmem).2
    rw [hsel] at hco
    cases hco
  · rw [h5]
    constructor
    · rintro ⟨ho, hsel⟩
      refine ⟨by simpa [offR] using ho, ?_⟩
      rw [h2, hsel]
      simp
    · rintro ⟨ho, hnm⟩
      refine ⟨by simpa [offR] using ho, ?_⟩
      rw [h2] at hnm
      cases hse : selR s.server_cipher
      · rfl
      · exact absurd hse hnm

/-- Claim C2, witness: applied to a session selecting export cipher 0x0003
while offering RC4 cipher 0x0004. -/
theorem claim_C2_witness :
    "EXPORT_GRADE_CIPHER" ∈ analyzeVulnFlags (mkSession [4] (some 3) none) ∧
    "EXPORT_CIPHER_OFFERED" ∉ analyzeVulnFlags (mkSession [4] (some 3) none) :=
  (claim_C2 (mkSession [4] (some 3) none)).1 3 rfl (by decide)

/-- Claim C3: in the serialized report, every session's is_vulnerable
boolean is true exactly when its vulnerability list is nonempty. -/
theorem claim_C3 (sessions : List TLSSession) (d : SessionDict)
    (hd : d ∈ (generate_report sessions).sessions) :
    d.is_vulnerable = true ↔ d.vulnerabilities ≠ [] := by
  simp only [generate_report, List.mem_map] at hd
  obtain ⟨s, _, rfl⟩ := hd
  simp only [TLSSession.to_dict, decide_eq_true_eq]
  cases s.vulnerabilities <;> simp

/-- Claim C3, witness: applied to a report over one flagged session. -/
theorem claim_C3_witness :
    (TLSSession.to_dict (mkSession [] none (some 640))).is_vulnerable = true ↔
      (TLSSession.to_dict (mkSession [] none (some 640))).vulnerabilities ≠ [] :=
  claim_C3 [mkSession [] none (some 640)] _ (by simp [generate_report])

/-- Claim C4: the session key is direction-independent, and processing a
ServerHello frame before its ClientHello yields the same session key and
the same final flags as the normal order. -/
theorem claim_C4 (A B : String) (P Q : Nat) (t1 t2 : Rat)
    (ciphers : List Nat) (cipher : Option Nat) :
    frameKey (⟨t1, A, B, P, Q, ParsedMsg.clientHello ciphers⟩ : Frame) =
      frameKey (⟨t2, B, A, Q, P, ParsedMsg.serverHello cipher⟩ : Frame) ∧
    (processFrame (processFrame []
        (⟨t1, A, B, P, Q, ParsedMsg.clientHello ciphers⟩ : Frame))
        (⟨t2, B, A, Q, P, ParsedMsg.serverHello cipher⟩ : Frame)).map
        (fun p => (p.1, analyzeVulnFlags p.2)) =
      (processFrame (processFrame []
        (⟨t2, B, A, Q, P, ParsedMsg.serverHello cipher⟩ : Frame))
        (⟨t1, A, B, P, Q, ParsedMsg.clientHello ciphers⟩ : Frame)).map
        (fun p => (p.1, analyzeVulnFlags p.2)) := by
  have hk : frameKey (⟨t1, A, B, P, Q, ParsedMsg.clientHello ciphers⟩ : Frame) =
      frameKey (⟨t2, B, A, Q, P, ParsedMsg.serverHello cipher⟩ : Frame) :=
    sessionKey_comm (endpointStr A P) (endpointStr B Q)
  refine ⟨hk, ?_⟩
  rw [processFrame_pair _ _ hk, processFrame_pair _ _ hk.symm, hk]
  simp only [List.map_cons, List.map_nil, List.cons.injEq, Prod.mk.injEq,
    and_true, true_and]
  rcases cipher with _ | c <;> rcases ciphers with _ | ⟨c0, cs⟩ <;>
    simp [updateSession, newSession, analyzeVulnFlags]

/-- Claim C5: the four manual parser entry points never raise on any byte
string: every length field that would read past the buffer is guarded, so
each returns a value (None or a partial result). -/
theorem claim_C5 :
    (∀ data : Bytes, okB (parse_tls_record data) = true) ∧
    (∀ data : Bytes, okB (parse_handshake data) = true) ∧
    (∀ data : Bytes, okB (parse_client_hello data) = true) ∧
    (∀ data : Bytes, okB (parse_server_hello data) = true) :=
  ⟨parse_tls_record_ok, parse_handshake_ok, parse_client_hello_ok,
   parse_server_hello_ok⟩

/-- Claim C6, counterexample: for the empty session list no session carries
an offered flag, yet both offered counters are present in the summary
(with value 0), so the keys are not omitted when the count is zero. -/
theorem claim_C6_counterexample :
    countFlag [] "EXPORT_CIPHER_OFFERED" = 0 ∧
    countFlag [] "RC4_CIPHER_OFFERED" = 0 ∧
    (generate_report []).vulnerability_summary.lookup "export_cipher_offered" =
      some 0 ∧
    (generate_report []).vulnerability_summary.lookup "rc4_cipher_offered" =
      some 0 :=
  ⟨rfl, rfl, rfl, rfl⟩

/-- Claim C6, amended: the summary always contains all five counters, the
offered ones included, whatever their counts; each maps to the number of
sessions carrying the corresponding flag. -/
theorem claim_C6_amended (sessions : List TLSSession) :
    (generate_report sessions).vulnerability_summary.map Prod.fst =
      ["export_grade_ciphers", "rc4_ciphers", "weak_dh_parameters",
       "export_cipher_offered", "rc4_cipher_offered"] ∧
    (generate_report sessions).vulnerability_summary.lookup
      "export_cipher_offered" = some (countFlag sessions "EXPORT_CIPHER_OFFERED") ∧
    (generate_report sessions).vulnerability_summary.lookup
      "rc4_cipher_offered" = some (countFlag sessions "RC4_CIPHER_OFFERED") := by
  refine ⟨rfl, ?_, ?_⟩ <;> simp [generate_report, List.lookup]

/-- Claim C7, counterexample: cipher id 0x00A6 is absent from the name
registry; it serializes with uppercase hex digits and the bare name
UNKNOWN, not lowercase hex and not UNKNOWN_0x00a6. -/
theorem claim_C7_counterexample :
    (TLSSession.to_dict (mkSession [0x00A6] none none)).client_offered =
      [("0x00A6", "UNKNOWN")] ∧
    ("0x00A6" : String) ≠ "0x00a6" ∧
    ("UNKNOWN" : String) ≠ "UNKNOWN_0x00a6" ∧
    ("UNKNOWN" : String) ≠ "UNKNOWN_0x00A6" := by
  refine ⟨rfl, ?_, ?_, ?_⟩ <;> decide

/-- Claim C7, amended: every serialized cipher id is 0x followed by at
least four UPPERCASE hex digits and re-parses through int(x, 16) to the
original integer; ids absent from the registry render with the bare name
UNKNOWN; the server_selected block reuses the same entry shape. -/
theorem claim_C7_amended (s : TLSSession) (c : Nat) :
    (TLSSession.to_dict s).client_offered = s.client_ciphers.map cipherEntry ∧
    int16 (cipherEntry c).1 = some c ∧
    (cipherEntry c).1.data.take 2 = ['0', 'x'] ∧
    ((cipherEntry c).1.data.drop 2).all isUpperHexDigit = true ∧
    4 ≤ ((cipherEntry c).1.data.drop 2).length ∧
    (CIPHER_SUITE_NAMES.find? (fun p => p.1 = c) = none →
      (cipherEntry c).2 = "UNKNOWN") ∧
    (∀ c2, s.server_cipher = some c2 → c2 ≠ 0 →
      (TLSSession.to_dict s).server_selected = some (cipherEntry c2)) := by
  refine ⟨rfl, int16_hex04X c, rfl, hex04X_digits_upper c,
    hex04X_digits_length c, ?_, ?_⟩
  · intro h
    simp [cipherEntry, cipherName, dictGet, h]
  · intro c2 hc2 hne
    simp [TLSSession.to_dict, hc2, hne]

/-- Claim C7, witness: the amended statement applied to the registered
cipher id 0xC02F as a server-selected cipher. -/
theorem claim_C7_witness :
    (TLSSession.to_dict (mkSession [] (some 0xC02F) none)).server_selected =
      some (cipherEntry 0xC02F) ∧
    int16 (cipherEntry 0xC02F).1 = some 0xC02F :=
  ⟨(claim_C7_amended (mkSession [] (some 0xC02F) none) 0xC02F).2.2.2.2.2.2
      0xC02F rfl (by decide),
   (claim_C7_amended (mkSession [] (some 0xC02F) none) 0xC02F).2.1⟩

/-- Claim C8, counterexample: a ServerHello frame at time 1 creates the
session; the later ClientHello frame at time 2 for the same key leaves the
session timestamp at 1, so the ClientHello capture time does not overwrite
an existing session's timestamp. -/
theorem claim_C8_counterexample :
    frameCH.facts = ParsedMsg.clientHello [3] ∧
    frameCH.time = 2 ∧
    (lookupSess (processFrame (processFrame [] frameSH) frameCH)
      (frameKey frameCH)).map TLSSession.timestamp = some 1 := by
  refine ⟨rfl, rfl, by decide⟩

/-- Claim C8, amended: the session timestamp is set only at session
creation, to the creating frame's capture time; processing any later frame
for an existing key, a ClientHello included, preserves the stored
timestamp. -/
theorem claim_C8_amended (m : SessMap) (f : Frame) :
    (∀ s, lookupSess m (frameKey f) = some s →
      lookupSess (processFrame m f) (frameKey f) = some (updateSession s f) ∧
      (updateSession s f).timestamp = s.timestamp) ∧
    (lookupSess m (frameKey f) = none →
      lookupSess (processFrame m f) (frameKey f) =
        some (updateSession (newSession (frameKey f) f) f) ∧
      (updateSession (newSession (frameKey f) f) f).timestamp = f.time) := by
  constructor
  · intro s hs
    refine ⟨?_, updateSession_timestamp s f⟩
    unfold processFrame
    rw [hs]
    exact lookupSess_setSess_self m (frameKey f) _ (by rw [hs]; rfl)
  · intro hn
    refine ⟨?_, ?_⟩
    · unfold processFrame
      rw [hn]
      exact lookupSess_append_right m (frameKey f) _ hn
    · rw [updateSession_timestamp]
      rfl

/-- Claim C8, witness: the amended statement applied to a one-session map
receiving a ClientHello frame. -/
theorem claim_C8_witness :
    lookupSess (processFrame [(frameKey frameCH, mkSession [] none none)]
        frameCH) (frameKey frameCH) =
      some (updateSession (mkSession [] none none) frameCH) ∧
    (updateSession (mkSession [] none none) frameCH).timestamp =
      (mkSession [] none none).timestamp :=
  (claim_C8_amended [(frameKey frameCH, mkSession [] none none)] frameCH).1
    (mkSession [] none none) (by simp [lookupSess])

/-- Claim C9, counterexample: a session selecting RC4 cipher 0x0004 (not
export) while offering export cipher 0x0003 classifies to the list
RC4_CIPHER, EXPORT_CIPHER_OFFERED, which is not in sorted order. -/
theorem claim_C9_counterexample :
    analyzeVulnFlags (mkSession [3] (some 4) none) =
      ["RC4_CIPHER", "EXPORT_CIPHER_OFFERED"] ∧
    ¬ List.Sorted (fun a b : String => a ≤ b)
      (analyzeVulnFlags (mkSession [3] (some 4) none)) := by
  constructor
  · decide
  · intro hs
    rw [show analyzeVulnFlags (mkSession [3] (some 4) none) =
      ["RC4_CIPHER", "EXPORT_CIPHER_OFFERED"] from by decide] at hs
    have hle : ("RC4_CIPHER" : String) ≤ "EXPORT_CIPHER_OFFERED" :=
      List.rel_of_sorted_cons hs _ (by simp)
    exact absurd hle (not_le.mpr (String.lt_iff_toList_lt.mpr (by decide)))

/-- Claim C9, amended: the flag list is always duplicate-free and follows
the fixed emission order EXPORT_GRADE_CIPHER, RC4_CIPHER,
WEAK_DH_PARAMETERS, EXPORT_CIPHER_OFFERED, RC4_CIPHER_OFFERED (it is a
sublist of that sequence), but is not alphabetically sorted in general. -/
theorem claim_C9_amended (s : TLSSession) :
    (analyzeVulnFlags s).Sublist
      ["EXPORT_GRADE_CIPHER", "RC4_CIPHER", "WEAK_DH_PARAMETERS",
       "EXPORT_CIPHER_OFFERED", "RC4_CIPHER_OFFERED"] ∧
    (analyzeVulnFlags s).Nodup := by
  have chunk : ∀ (c : Bool) (x : String),
      (if c then [x] else []).Sublist [x] := by
    intro c x
    cases c <;> simp
  have hsub : (analyzeVulnFlags s).Sublist
      ["EXPORT_GRADE_CIPHER", "RC4_CIPHER", "WEAK_DH_PARAMETERS",
       "EXPORT_CIPHER_OFFERED", "RC4_CIPHER_OFFERED"] := by
    rw [analyzeVulnFlags_closed]
    show List.Sublist _ (["EXPORT_GRADE_CIPHER"] ++ ["RC4_CIPHER"] ++
      ["WEAK_DH_PARAMETERS"] ++ ["EXPORT_CIPHER_OFFERED"] ++
      ["RC4_CIPHER_OFFERED"])
    exact ((((chunk _ _).append (chunk _ _)).append (chunk _ _)).append
      (chunk _ _)).append (chunk _ _)
  exact ⟨hsub, hsub.nodup (by decide)⟩

/-- Claim C10: a server-selected cipher recorded as 0 is treated as if no
ServerHello had been seen: classification produces the same flags as with
no selected cipher (both selected-cipher conditions are false), and the
serialized server_selected block is null. -/
theorem claim_C10 (s : TLSSession) (h : s.server_cipher = some 0) :
    analyzeVulnFlags s = analyzeVulnFlags { s with server_cipher := none } ∧
    selE s.server_cipher = false ∧
    selR s.server_cipher = false ∧
    (TLSSession.to_dict s).server_selected = none := by
  refine ⟨?_, by simp [selE, h], by simp [selR, h], by simp [TLSSession.to_dict, h]⟩
  rw [analyzeVulnFlags_closed, analyzeVulnFlags_closed]
  simp [selE, selR, h]

/-- Claim C10, witness: applied to a session whose ServerHello recorded
cipher id 0x0000. -/
theorem claim_C10_witness :
    analyzeVulnFlags (mkSession [] (some 0) none) =
      analyzeVulnFlags { (mkSession [] (some 0) none) with server_cipher := none } ∧
    selE (mkSession [] (some 0) none).server_cipher = false ∧
    selR (mkSession [] (some 0) none).server_cipher = false ∧
    (TLSSession.to_dict (mkSession [] (some 0) none)).server_selected = none :=
  claim_C10 (mkSession [] (some 0) none) rfl

end TLSAnalyzer
